import Mathlib

/-!
Verification of the job-orchestration core of the AI Video Editor backend
(src/backend/main.py): the job record and its status/progress lifecycle
driven by process_video, the submission handler edit_video, and the
retention sweep cleanup_old_jobs.

Python strings manipulated character-wise (slicing, re.sub of character
classes, strip) are embedded as PyStr := List Char so that s[:n] is
List.take n, re.sub of a character class is List.filter, and strip is
dropping whitespace at both ends.  Opaque identifiers (job ids, paths,
codec names) stay Lean String.

The pipeline's interactions with the outside world (the AI HTTP call, the
ffmpeg run, filesystem checks and deletions) are oracles collected in a
PipelineEnv; process_video is embedded as a function from that environment
to the sequence of writes it performs on the job record, grouped into the
atomic blocks between suspension points, so that every state a concurrent
status query could observe is a fold of a prefix of those blocks.
-/

namespace VideoEditor

/-- Characters of a Python string, manipulated positionally. -/
abbrev PyStr := List Char

/-- Python str.strip(): drop whitespace from both ends. -/
def pythonStrip (s : PyStr) : PyStr :=
  ((s.dropWhile Char.isWhitespace).reverse.dropWhile Char.isWhitespace).reverse

/-- Job status values stored in the jobs table: "pending", "processing",
"completed", "failed". -/
inductive Status
  | pending
  | processing
  | completed
  | failed
deriving DecidableEq, Repr

/-- One job record of the in-memory jobs dict (main.py lines 285-292):
keys id, status, progress, output_url, error, created_at. -/
structure Job where
  id : String
  status : Status
  progress : Nat
  output_url : Option String
  error : Option PyStr
  created_at : Int
deriving DecidableEq, Repr

/-- A single field write to a job record, e.g. jobs[job_id]["status"] = s. -/
inductive Event
  | setStatus (s : Status)
  | setProgress (p : Nat)
  | setOutputUrl (u : String)
  | setError (e : PyStr)
deriving DecidableEq, Repr

/-- Apply one field write to a record. -/
def applyEvent (j : Job) : Event → Job
  | .setStatus s => { j with status := s }
  | .setProgress p => { j with progress := p }
  | .setOutputUrl u => { j with output_url := some u }
  | .setError e => { j with error := some e }

/-- Apply a sequence of field writes in order. -/
def applyEvents (j : Job) (es : List Event) : Job :=
  es.foldl applyEvent j

/-- MAX_FILE_SIZE = 500 * 1024 * 1024 (main.py line 44). -/
def MAX_FILE_SIZE : Nat := 500 * 1024 * 1024

/-- ALLOWED_VIDEO_TYPES (main.py line 45). -/
def ALLOWED_VIDEO_TYPES : List String :=
  ["video/mp4", "video/webm", "video/quicktime", "video/x-msvideo",
   "video/x-matroska"]

/-- One entry of FORMAT_CONFIGS (main.py lines 81-86). -/
structure FormatConfig where
  width : Nat
  height : Nat
  aspect : String
deriving DecidableEq, Repr

/-- FORMAT_CONFIGS (main.py lines 81-86). -/
def FORMAT_CONFIGS : List (String × FormatConfig) :=
  [("tiktok", ⟨1080, 1920, "9:16"⟩),
   ("youtube", ⟨1920, 1080, "16:9"⟩),
   ("square", ⟨1080, 1080, "1:1"⟩),
   ("landscape", ⟨1920, 1080, "16:9"⟩)]

/-- FORMAT_CONFIGS.get(output_format, FORMAT_CONFIGS["tiktok"])
(main.py line 161). -/
def format_configs_get (fmt : String) : FormatConfig :=
  match FORMAT_CONFIGS.lookup fmt with
  | some c => c
  | none => ⟨1080, 1920, "9:16"⟩

/-- Failure of the transcode stage: either ffmpeg.Error carrying stderr
(re-raised at line 194 as RuntimeError with the prefix below), or any other
exception raised while building or running the ffmpeg invocation. -/
inductive TranscodeErr
  | ffmpegError (stderr : PyStr)
  | otherError (msg : PyStr)
deriving DecidableEq, Repr

/-- The text of the exception the outer handler catches for a transcode
failure: RuntimeError(f"FFmpeg processing failed: {e.stderr}") for
ffmpeg.Error (main.py line 194), the raw message otherwise. -/
def TranscodeErr.text : TranscodeErr → PyStr
  | .ffmpegError stderr => ("FFmpeg processing failed: ").toList ++ stderr
  | .otherError msg => msg

/-- Outcomes of the external effects one run of process_video performs:
the call_qwen_api result (line 153), the ffmpeg run outcome (lines 167-194,
none = reported success), output_path.exists() (line 199),
os.path.exists(video_path) and whether os.remove raises (lines 213-214). -/
structure PipelineEnv where
  aiResult : Except PyStr PyStr
  transcode : Option TranscodeErr
  outputExists : Bool
  inputExists : Bool
  inputRemoveFails : Bool
deriving Repr

/-- Arguments ffmpeg is invoked with (main.py lines 167-192): input path,
the scale/pad target taken from the format config, and the fixed output
profile vcodec="libx264", acodec="aac", preset="medium", crf=23. -/
structure TranscodeCall where
  input_path : String
  width : Nat
  height : Nat
  output_path : String
  vcodec : String
  acodec : String
  preset : String
  crf : Nat
deriving DecidableEq, Repr

/-- Result of one run of process_video: the job-record writes grouped into
the atomic blocks between suspension points (a concurrent status query can
observe the record exactly between blocks), the ffmpeg invocation built on
the transcode path, and the finally-block cleanup of the input artifact. -/
structure RunResult where
  blocks : List (List Event)
  invocation : TranscodeCall
  cleanup_attempted : Bool
  input_removed : Bool
deriving DecidableEq, Repr

/-- Shallow embedding of process_video (main.py lines 143-216) as the
sequence of job-record writes it performs under a given environment.
Block 1: status=processing, progress=10 (lines 148-149).  Block 2: the
await of call_qwen_api returns or raises; either way progress=30
(lines 152-158).  Block 3: progress=50 (line 164).  Then the ffmpeg run:
on ffmpeg.Error it is re-raised as RuntimeError (line 194) and, like any
other exception of the try body, caught at line 206, writing
status=failed and error=str(e)[:500] in one block (lines 207-208).  On
success progress=90 (line 196), then the existence check (line 199): if
the output is missing a RuntimeError is raised and caught the same way;
otherwise status=completed, progress=100 and output_url are written in one
block (lines 202-204).  The finally block (lines 210-216) always runs and
removes the input file when it exists, swallowing any failure. -/
def process_video (job_id video_path : String) (prompt : PyStr)
    (output_format : String) (env : PipelineEnv) : RunResult :=
  let output_path := job_id ++ "_output.mp4"
  let startBlock : List Event := [.setStatus .processing, .setProgress 10]
  let aiBlock : List Event :=
    match env.aiResult with
    | .ok _ai_response => [.setProgress 30]
    | .error _e => [.setProgress 30]
  let config := format_configs_get output_format
  let invocation : TranscodeCall :=
    { input_path := video_path, width := config.width,
      height := config.height, output_path := output_path,
      vcodec := "libx264", acodec := "aac", preset := "medium", crf := 23 }
  let tailBlocks : List (List Event) :=
    match env.transcode with
    | some err =>
        [[.setStatus .failed, .setError ((TranscodeErr.text err).take 500)]]
    | none =>
        [[.setProgress 90]] ++
        (if env.outputExists then
          [[.setStatus .completed, .setProgress 100,
            .setOutputUrl ("/api/download/" ++ job_id)]]
        else
          [[.setStatus .failed,
            .setError (("Output file was not created").toList.take 500)]])
  { blocks := [startBlock, aiBlock, [.setProgress 50]] ++ tailBlocks,
    invocation := invocation,
    cleanup_attempted := true,
    input_removed := env.inputExists && !env.inputRemoveFails }

/-- All job-record writes of one pipeline run, in program order. -/
def pipelineEvents (job_id video_path : String) (prompt : PyStr)
    (output_format : String) (env : PipelineEnv) : List Event :=
  (process_video job_id video_path prompt output_format env).blocks.flatten

/-- The job record edit_video creates (main.py lines 285-292). -/
def initial_job (job_id : String) (now : Int) : Job :=
  { id := job_id, status := .pending, progress := 0, output_url := none,
    error := none, created_at := now }

/-- The sequence of values written to the status field, in order. -/
def statusWrites (es : List Event) : List Status :=
  es.filterMap fun e =>
    match e with
    | .setStatus s => some s
    | _ => none

/-- The sequence of values written to the progress field, in order. -/
def progressWrites (es : List Event) : List Nat :=
  es.filterMap fun e =>
    match e with
    | .setProgress p => some p
    | _ => none

/-- Every state of the job record a concurrent status query can observe
during one pipeline run: the folds of the block prefixes, starting from
the record as created by the submission handler. -/
def observable_states (j : Job) (blocks : List (List Event)) : List Job :=
  blocks.scanl applyEvents j

/-- The job record after the pipeline run finishes. -/
def final_job (j : Job) (blocks : List (List Event)) : Job :=
  blocks.foldl applyEvents j

/-- Prompt sanitization the submission handler applies before handing the
prompt to the pipeline (main.py line 281):
re.sub(r'[<>]', '', prompt)[:2000].strip().  Note this inline copy, unlike
the unused VideoEditRequest.sanitize_prompt validator (lines 55-61), does
not remove javascript: scheme prefixes. -/
def edit_sanitize_prompt (prompt : PyStr) : PyStr :=
  pythonStrip ((prompt.filter fun c => !(c == '<' || c == '>')).take 2000)

/-- The uploaded file as the handler sees it: its declared content type
(None when the client sent none) and the sizes of the successive non-empty
chunks returned by video.read(8192) (the loop at line 266 stops at the
first empty chunk). -/
structure Upload where
  content_type : Option String
  chunks : List Nat
deriving DecidableEq, Repr

/-- validate_video_file (main.py lines 99-105): reject when content_type
is missing or not one of ALLOWED_VIDEO_TYPES. -/
def validate_video_file (u : Upload) : Bool :=
  match u.content_type with
  | none => false
  | some ct => ALLOWED_VIDEO_TYPES.contains ct

/-- The streaming loop of edit_video (main.py lines 263-274): accumulate
chunk sizes, and abort (deleting the partial file) as soon as the running
total exceeds MAX_FILE_SIZE.  Returns none on abort, otherwise the total
size written. -/
def streamToDisk (total : Nat) : List Nat → Option Nat
  | [] => some total
  | c :: cs =>
      let t := total + c
      if t > MAX_FILE_SIZE then none else streamToDisk t cs

/-- What the submission handler returns: an HTTPException with a status
code and detail, or the {"id": ..., "status": "pending"} payload. -/
inductive EditResponse
  | httpError (status_code : Nat) (detail : String)
  | submitted (id : String) (status : Status)
deriving DecidableEq, Repr

/-- The task handed to background processing (main.py line 295):
process_video(job_id, video_path, sanitized_prompt, format). -/
structure PipelineTask where
  job_id : String
  video_path : String
  sanitized_prompt : PyStr
  format : String
deriving DecidableEq, Repr

/-- Outcome of one call to the submission handler: the HTTP response, the
jobs store afterwards, whether the job's input file is left on disk, and
the background task enqueued (if any). -/
structure EditResult where
  response : EditResponse
  store : List (String × Job)
  inputFileExists : Bool
  task : Option PipelineTask
deriving DecidableEq, Repr

/-- Shallow embedding of the synchronous part of edit_video (main.py lines
240-298).  Format falls back to "tiktok" when unknown (lines 248-249); a
missing video or a disallowed content type is rejected before any file is
written (lines 252-255); the upload is streamed with the running size
check, deleting the partial file and answering 400 when the cap is
exceeded (lines 263-274); only then is the prompt sanitized, the pending
job record created and the pipeline task enqueued (lines 281-296). -/
def edit_video (prompt : PyStr) (format : String) (video : Option Upload)
    (job_id : String) (now : Int) (store : List (String × Job)) :
    EditResult :=
  let format := if (FORMAT_CONFIGS.lookup format).isSome then format
                else "tiktok"
  match video with
  | none =>
      { response := .httpError 400 "Video file is required",
        store := store, inputFileExists := false, task := none }
  | some v =>
      if !validate_video_file v then
        { response := .httpError 400 "Invalid video type",
          store := store, inputFileExists := false, task := none }
      else
        let video_path := job_id ++ "_input.mp4"
        match streamToDisk 0 v.chunks with
        | none =>
            { response := .httpError 400
                ("File too large. Maximum size is " ++
                 toString (MAX_FILE_SIZE / (1024 * 1024)) ++ "MB"),
              store := store, inputFileExists := false, task := none }
        | some _total =>
            let sanitized_prompt := edit_sanitize_prompt prompt
            { response := .submitted job_id .pending,
              store := store ++ [(job_id, initial_job job_id now)],
              inputFileExists := true,
              task := some ⟨job_id, video_path, sanitized_prompt, format⟩ }

/-- Output artifact path of a job, TEMP_DIR / f"{job_id}_output.mp4"
(main.py lines 145 and 226), relative to TEMP_DIR. -/
def output_path (job_id : String) : String :=
  job_id ++ "_output.mp4"

/-- Shallow embedding of cleanup_old_jobs (main.py lines 219-232) over the
jobs table and the set of files on disk.  now is time.time();
unlinkFails j says whether output_path.unlink() raises for job j.  For
every entry older than one hour: if its output file exists, unlink it,
swallowing any failure (lines 227-231), and then — unconditionally, even
when the unlink failed — delete the record (line 232). -/
def cleanup_old_jobs (now : Int) (unlinkFails : String → Bool) :
    List (String × Job) → List String → List (String × Job) × List String
  | [], fs => ([], fs)
  | (job_id, job) :: rest, fs =>
      if job.created_at < now - 3600 then
        let fs' := if output_path job_id ∈ fs then
                     (if unlinkFails job_id then fs
                      else fs.filter (fun q => q != output_path job_id))
                   else fs
        cleanup_old_jobs now unlinkFails rest fs'
      else
        let r := cleanup_old_jobs now unlinkFails rest fs
        ((job_id, job) :: r.1, r.2)

end VideoEditor

namespace VideoEditor

/-- The status transitions the pipeline may make on a job record:
pending to processing on pipeline start, processing to a terminal
completed or failed. -/
def statusAdvances : Status → Status → Bool
  | .pending, .processing => true
  | .processing, .completed => true
  | .processing, .failed => true
  | _, _ => false

/-- Invariant tying output_url and error to the status field of a job
record: a download handle exactly when completed, a bounded error summary
exactly when failed, neither while pending or processing. -/
def recordInvariant (j : Job) : Prop :=
  (j.status = .completed → j.output_url.isSome = true ∧ j.error = none) ∧
  (j.status = .failed →
    j.error.isSome = true ∧ (j.error.getD []).length ≤ 500 ∧
    j.output_url = none) ∧
  (j.status = .pending ∨ j.status = .processing →
    j.output_url = none ∧ j.error = none)

/-- Characters surviving pythonStrip were in the original string. -/
lemma mem_pythonStrip {c : Char} {l : PyStr} (h : c ∈ pythonStrip l) :
    c ∈ l := by
  unfold pythonStrip at h
  rw [List.mem_reverse] at h
  have h2 : c ∈ (l.dropWhile Char.isWhitespace).reverse :=
    (List.dropWhile_sublist _).subset h
  rw [List.mem_reverse] at h2
  exact (List.dropWhile_sublist _).subset h2

/-- pythonStrip never lengthens a string. -/
lemma pythonStrip_length_le (l : PyStr) : (pythonStrip l).length ≤ l.length := by
  unfold pythonStrip
  calc (((l.dropWhile Char.isWhitespace).reverse.dropWhile
          Char.isWhitespace).reverse).length
      ≤ (l.dropWhile Char.isWhitespace).reverse.length := by
        rw [List.length_reverse]
        exact (List.dropWhile_sublist _).length_le
    _ ≤ l.length := by
        rw [List.length_reverse]
        exact (List.dropWhile_sublist _).length_le

/-- The streaming loop aborts exactly when the total size of the upload
exceeds the cap: the running total is non-decreasing, so some running
check fires if and only if the full sum is over MAX_FILE_SIZE. -/
lemma streamToDisk_eq_none {cs : List Nat} :
    ∀ {total : Nat}, total ≤ MAX_FILE_SIZE →
      (streamToDisk total cs = none ↔ MAX_FILE_SIZE < total + cs.sum) := by
  induction cs with
  | nil =>
      intro total h
      simp [streamToDisk]
      omega
  | cons c cs ih =>
      intro total h
      by_cases hc : total + c > MAX_FILE_SIZE
      · simp [streamToDisk, hc]
        omega
      · rw [streamToDisk]
        simp only [hc, if_neg, if_false]
        rw [ih (by omega)]
        simp [List.sum_cons]
        omega

/-- The reaper keeps exactly the store entries inside the retention
window; every expired entry is removed whatever happened to its file. -/
lemma cleanup_fst_eq (now : Int) (f : String → Bool) :
    ∀ (store : List (String × Job)) (fs : List String),
      (cleanup_old_jobs now f store fs).1
        = store.filter (fun e => !decide (e.2.created_at < now - 3600)) := by
  intro store
  induction store with
  | nil => intro fs; rfl
  | cons hd tl ih =>
      intro fs
      obtain ⟨jid, job⟩ := hd
      by_cases hx : job.created_at < now - 3600
      · simp [cleanup_old_jobs, hx, ih]
      · simp [cleanup_old_jobs, hx, ih]

/-- In a store whose keys are distinct, a key determines its record. -/
lemma nodup_keys_unique :
    ∀ {store : List (String × Job)}, (store.map Prod.fst).Nodup →
      ∀ {a : String} {b c : Job}, (a, b) ∈ store → (a, c) ∈ store → b = c := by
  intro store
  induction store with
  | nil => intro _ a b c hb; cases hb
  | cons hd tl ih =>
      intro h a b c hb hc
      rw [List.map_cons, List.nodup_cons] at h
      rcases List.mem_cons.mp hb with hEq | hb'
      · rcases List.mem_cons.mp hc with hEq2 | hc'
        · rw [← hEq] at hEq2
          exact (congrArg Prod.snd hEq2).symm
        · exfalso
          apply h.1
          rw [← hEq]
          exact List.mem_map.mpr ⟨(a, c), hc', rfl⟩
      · rcases List.mem_cons.mp hc with hEq2 | hc'
        · exfalso
          apply h.1
          rw [← hEq2]
          exact List.mem_map.mpr ⟨(a, b), hb', rfl⟩
        · exact ih h.2 hb' hc'

/-- The reaper never creates files: a path absent from disk before a sweep
is absent after it. -/
lemma cleanup_fs_subset (now : Int) (f : String → Bool) :
    ∀ (store : List (String × Job)) (fs : List String) (p : String),
      p ∉ fs → p ∉ (cleanup_old_jobs now f store fs).2 := by
  intro store
  induction store with
  | nil => intro fs p hp; exact hp
  | cons hd tl ih =>
      intro fs p hp
      obtain ⟨jid, job⟩ := hd
      by_cases hx : job.created_at < now - 3600
      · rw [cleanup_old_jobs]
        simp only [hx, if_pos]
        apply ih
        intro hin
        split_ifs at hin
        · exact hp hin
        · exact hp (List.mem_filter.mp hin).1
        · exact hp hin
      · rw [cleanup_old_jobs]
        simp only [hx, if_neg, if_false]
        exact ih fs p hp

/-- When unlink does not fail for an expired job, its output artifact is
gone from disk after the sweep. -/
lemma cleanup_removes_artifact (now : Int) (f : String → Bool) :
    ∀ (store : List (String × Job)) (fs : List String) (jid : String) (job : Job),
      (jid, job) ∈ store → job.created_at < now - 3600 → f jid = false →
      output_path jid ∉ (cleanup_old_jobs now f store fs).2 := by
  intro store
  induction store with
  | nil => intro fs jid job hmem; cases hmem
  | cons hd tl ih =>
      intro fs jid job hmem hexp hf
      obtain ⟨a, b⟩ := hd
      rcases List.mem_cons.mp hmem with hEq | hmem'
      · rw [Prod.mk.injEq] at hEq
        obtain ⟨rfl, rfl⟩ := hEq
        rw [cleanup_old_jobs]
        simp only [hexp, if_pos]
        apply cleanup_fs_subset
        split_ifs with h1 h2
        · rw [hf] at h2
          cases h2
        · simp [List.mem_filter]
        · exact h1
      · rw [cleanup_old_jobs]
        by_cases hx : b.created_at < now - 3600
        · simp only [hx, if_pos]
          exact ih _ jid job hmem' hexp hf
        · simp only [hx, if_neg, if_false]
          exact ih fs jid job hmem' hexp hf

/-- C1: across one pipeline run the values written to the status field,
appended to the initial pending, follow only the forward transitions
pending to processing to completed or failed, and no status value is ever
revisited. -/
theorem status_transitions_forward (job_id video_path : String)
    (prompt : PyStr) (output_format : String) (env : PipelineEnv) :
    List.Chain' (fun a b => statusAdvances a b = true)
      (Status.pending ::
        statusWrites (pipelineEvents job_id video_path prompt output_format env)) ∧
    (Status.pending ::
        statusWrites (pipelineEvents job_id video_path prompt output_format env)).Nodup := by
  obtain ⟨ai, tc, oe, ie, irf⟩ := env
  cases ai <;> cases tc <;> cases oe <;>
    simp [pipelineEvents, process_video, statusWrites, format_configs_get,
      statusAdvances]

/-- C2: the progress values written by one pipeline run are non-decreasing
from the initial 0 on every path; 10, 30 and 50 are written in that order
regardless of the instruction-lookup outcome; and a run ending completed
writes exactly the checkpoints 10, 30, 50, 90, 100 in that order. -/
theorem progress_monotone_checkpoints (job_id video_path : String)
    (prompt : PyStr) (output_format : String) (now : Int) (env : PipelineEnv) :
    List.Chain' (fun a b => a ≤ b)
      (0 :: progressWrites (pipelineEvents job_id video_path prompt output_format env)) ∧
    [10, 30, 50] <+:
      progressWrites (pipelineEvents job_id video_path prompt output_format env) ∧
    ((final_job (initial_job job_id now)
        (process_video job_id video_path prompt output_format env).blocks).status
          = .completed →
      progressWrites (pipelineEvents job_id video_path prompt output_format env)
        = [10, 30, 50, 90, 100]) := by
  obtain ⟨ai, tc, oe, ie, irf⟩ := env
  cases ai <;> cases tc <;> cases oe <;>
    simp [pipelineEvents, process_video, progressWrites, final_job,
      applyEvents, applyEvent, initial_job, format_configs_get] <;>
    decide

/-- Witness for C2 at a concrete successful run. -/
theorem progress_monotone_checkpoints_witness :
    List.Chain' (fun a b => a ≤ b)
      (0 :: progressWrites (pipelineEvents "j" "v" [] "tiktok"
        ⟨.ok [], none, true, true, false⟩)) ∧
    progressWrites (pipelineEvents "j" "v" [] "tiktok"
        ⟨.ok [], none, true, true, false⟩) = [10, 30, 50, 90, 100] := by
  have h := progress_monotone_checkpoints "j" "v" [] "tiktok" 0
    ⟨.ok [], none, true, true, false⟩
  exact ⟨h.1, h.2.2 (by decide)⟩

/-- C3: every state of the job record observable during a pipeline run,
from the pending record the submission handler created to the terminal
one, satisfies recordInvariant: output handle present and no error
exactly when completed, a bounded (at most 500 character) error summary
and no handle exactly when failed, neither while pending or processing. -/
theorem record_invariant_holds (job_id video_path : String) (prompt : PyStr)
    (output_format : String) (now : Int) (env : PipelineEnv) :
    ∀ j ∈ observable_states (initial_job job_id now)
        (process_video job_id video_path prompt output_format env).blocks,
      recordInvariant j := by
  obtain ⟨ai, tc, oe, ie, irf⟩ := env
  cases ai <;> cases tc <;> cases oe <;>
    simp [observable_states, process_video, format_configs_get, applyEvents,
      applyEvent, initial_job, recordInvariant, List.forall_mem_cons,
      List.length_take, TranscodeErr.text]

/-- Witness for C3 at the initial record of a concrete run. -/
theorem record_invariant_holds_witness :
    recordInvariant (initial_job "j" 0) := by
  have h := record_invariant_holds "j" "v" [] "tiktok" 0
    ⟨.ok [], none, true, true, false⟩
  exact h (initial_job "j" 0) (by decide)

/-- C4: a failing instruction-lookup call is absorbed: progress still
passes 10, 30, 50 in order, the failure alone never yields status failed
(failed requires a transcode failure or a missing output), and with a
successful transcode and existing output the job still completes. -/
theorem advisor_failure_absorbed (job_id video_path : String) (prompt : PyStr)
    (output_format : String) (now : Int) (env : PipelineEnv) (msg : PyStr)
    (hai : env.aiResult = .error msg) :
    [10, 30, 50] <+:
      progressWrites (pipelineEvents job_id video_path prompt output_format env) ∧
    ((final_job (initial_job job_id now)
        (process_video job_id video_path prompt output_format env).blocks).status
          = .failed →
      env.transcode ≠ none ∨ env.outputExists = false) ∧
    (env.transcode = none → env.outputExists = true →
      (final_job (initial_job job_id now)
        (process_video job_id video_path prompt output_format env).blocks).status
          = .completed) := by
  obtain ⟨ai, tc, oe, ie, irf⟩ := env
  simp only at hai
  subst hai
  cases tc <;> cases oe <;>
    simp [pipelineEvents, process_video, progressWrites, final_job,
      applyEvents, applyEvent, initial_job, format_configs_get]

/-- Witness for C4: a timed-out advisor call with a clean transcode still
ends in a completed job. -/
theorem advisor_failure_absorbed_witness :
    [10, 30, 50] <+:
      progressWrites (pipelineEvents "j" "v" [] "tiktok"
        ⟨.error ("timeout").toList, none, true, true, false⟩) ∧
    (final_job (initial_job "j" 0)
        (process_video "j" "v" [] "tiktok"
          ⟨.error ("timeout").toList, none, true, true, false⟩).blocks).status
      = .completed := by
  have h := advisor_failure_absorbed "j" "v" [] "tiktok" 0
    ⟨.error ("timeout").toList, none, true, true, false⟩ (("timeout").toList) rfl
  exact ⟨h.1, h.2.2 rfl rfl⟩

/-- C5: a transcode failure, or a transcode reporting success while the
output artifact is missing, leaves the job failed with the caught error
text truncated to at most 500 characters as the error summary, and no
state of that run is ever completed. -/
theorem transcode_failure_fatal (job_id video_path : String) (prompt : PyStr)
    (output_format : String) (now : Int) (env : PipelineEnv)
    (h : env.transcode ≠ none ∨ env.outputExists = false) :
    (final_job (initial_job job_id now)
        (process_video job_id video_path prompt output_format env).blocks).status
      = .failed ∧
    (final_job (initial_job job_id now)
        (process_video job_id video_path prompt output_format env).blocks).error.isSome
      = true ∧
    ((final_job (initial_job job_id now)
        (process_video job_id video_path prompt output_format env).blocks).error.getD
      []).length ≤ 500 ∧
    (∀ err, env.transcode = some err →
      (final_job (initial_job job_id now)
          (process_video job_id video_path prompt output_format env).blocks).error
        = some ((TranscodeErr.text err).take 500)) ∧
    (env.transcode = none →
      (final_job (initial_job job_id now)
          (process_video job_id video_path prompt output_format env).blocks).error
        = some (("Output file was not created").toList.take 500)) ∧
    Status.completed ∉
      (Status.pending ::
        statusWrites (pipelineEvents job_id video_path prompt output_format env)) := by
  obtain ⟨ai, tc, oe, ie, irf⟩ := env
  cases ai <;> cases tc <;> cases oe <;>
    simp_all [pipelineEvents, process_video, progressWrites, statusWrites,
      final_job, applyEvents, applyEvent, initial_job, format_configs_get,
      TranscodeErr.text, List.length_take]

/-- Witness for C5 at a concrete failing ffmpeg run. -/
theorem transcode_failure_fatal_witness :
    (final_job (initial_job "j" 0)
        (process_video "j" "v" [] "tiktok"
          ⟨.ok [], some (.ffmpegError ("boom").toList), true, true,
            false⟩).blocks).status = .failed ∧
    (final_job (initial_job "j" 0)
        (process_video "j" "v" [] "tiktok"
          ⟨.ok [], some (.ffmpegError ("boom").toList), true, true,
            false⟩).blocks).error
      = some ((TranscodeErr.text (.ffmpegError ("boom").toList)).take 500) := by
  have h := transcode_failure_fatal "j" "v" [] "tiktok" 0
    ⟨.ok [], some (.ffmpegError ("boom").toList), true, true, false⟩ (by decide)
  exact ⟨h.1, h.2.2.2.1 _ rfl⟩

end VideoEditor

namespace VideoEditor

/-- C6 counterexample: an expired job whose output unlink fails is still
deleted from the store (line 232 of main.py runs regardless of the
swallowed unlink failure), leaving the artifact orphaned on disk — the
record is not kept for a retry on the next sweep as the claim states. -/
theorem reaper_orphans_artifact_on_unlink_failure :
    (initial_job "a" 0).created_at < 4000 - 3600 ∧
    cleanup_old_jobs 4000 (fun _ => true)
        [("a", initial_job "a" 0)] ["a_output.mp4"]
      = ([], ["a_output.mp4"]) := by
  decide

/-- C6 as amended: a sweep removes every expired job record from the store
unconditionally; artifact deletion is best-effort, so when the unlink does
not fail the output artifact is also gone from disk after the sweep. -/
theorem reaper_evicts_expired (now : Int) (f : String → Bool)
    (store : List (String × Job)) (fs : List String) (jid : String) (job : Job)
    (hmem : (jid, job) ∈ store)
    (hkeys : (store.map Prod.fst).Nodup)
    (hexp : job.created_at < now - 3600) :
    jid ∉ ((cleanup_old_jobs now f store fs).1.map Prod.fst) ∧
    (f jid = false →
      output_path jid ∉ (cleanup_old_jobs now f store fs).2) := by
  constructor
  · intro hin
    obtain ⟨e, he, heq⟩ := List.mem_map.mp hin
    obtain ⟨a, j2⟩ := e
    rw [cleanup_fst_eq, List.mem_filter] at he
    obtain ⟨hmem2, hcond⟩ := he
    simp only at heq
    subst heq
    have hj : j2 = job := nodup_keys_unique hkeys hmem2 hmem
    subst hj
    simp [hexp] at hcond
  · intro hf
    exact cleanup_removes_artifact now f store fs jid job hmem hexp hf

/-- Witness for C6 as amended, at a concrete expired job whose unlink
succeeds. -/
theorem reaper_evicts_expired_witness :
    "a" ∉ ((cleanup_old_jobs 4000 (fun _ => false)
        [("a", initial_job "a" 0)] ["a_output.mp4"]).1.map Prod.fst) ∧
    output_path "a" ∉ (cleanup_old_jobs 4000 (fun _ => false)
        [("a", initial_job "a" 0)] ["a_output.mp4"]).2 := by
  have h := reaper_evicts_expired 4000 (fun _ => false)
    [("a", initial_job "a" 0)] ["a_output.mp4"] "a" (initial_job "a" 0)
    (by decide) (by decide) (by decide)
  exact ⟨h.1, h.2 rfl⟩

/-- C7 counterexample: the sanitization the submission handler actually
applies (main.py line 281) does not remove javascript: scheme prefixes —
on the input "javascript:alert(1)" the prompt passed to the pipeline still
begins with the javascript: scheme, contradicting the claim that every
javascript-scheme prefix is removed. -/
theorem sanitize_keeps_javascript_scheme :
    edit_sanitize_prompt (("javascript:alert(1)").toList)
      = ("javascript:alert(1)").toList ∧
    ("javascript:").toList <+:
      edit_sanitize_prompt (("javascript:alert(1)").toList) := by
  decide

/-- C7 as amended: the prompt the submission handler passes to the
pipeline contains no angle-bracket characters and is at most 2000
characters long; javascript-scheme prefixes, however, are not removed on
this path (that removal exists only in the unused
VideoEditRequest.sanitize_prompt validator). -/
theorem sanitized_prompt_no_brackets_bounded (prompt : PyStr) :
    '<' ∉ edit_sanitize_prompt prompt ∧
    '>' ∉ edit_sanitize_prompt prompt ∧
    (edit_sanitize_prompt prompt).length ≤ 2000 := by
  refine ⟨?_, ?_, ?_⟩
  · intro h
    have h1 := mem_pythonStrip h
    have h2 := (List.take_sublist _ _).subset h1
    rw [List.mem_filter] at h2
    simp at h2
  · intro h
    have h1 := mem_pythonStrip h
    have h2 := (List.take_sublist _ _).subset h1
    rw [List.mem_filter] at h2
    simp at h2
  · calc (edit_sanitize_prompt prompt).length
        ≤ ((prompt.filter fun c => !(c == '<' || c == '>')).take 2000).length :=
          pythonStrip_length_le _
      _ ≤ 2000 := List.length_take_le _ _

/-- C8: an upload that passes content-type validation but whose
accumulated size exceeds MAX_FILE_SIZE during streaming is rejected with
a 400 error, the partial input file is deleted, the job store is exactly
unchanged, and no pipeline task is enqueued. -/
theorem oversized_upload_rejected (prompt : PyStr) (format : String)
    (v : Upload) (job_id : String) (now : Int) (store : List (String × Job))
    (hct : validate_video_file v = true)
    (hsize : MAX_FILE_SIZE < v.chunks.sum) :
    (edit_video prompt format (some v) job_id now store).response
      = .httpError 400 ("File too large. Maximum size is " ++
          toString (MAX_FILE_SIZE / (1024 * 1024)) ++ "MB") ∧
    (edit_video prompt format (some v) job_id now store).store = store ∧
    (edit_video prompt format (some v) job_id now store).inputFileExists
      = false ∧
    (edit_video prompt format (some v) job_id now store).task = none := by
  have hs : streamToDisk 0 v.chunks = none :=
    (streamToDisk_eq_none (by omega)).mpr (by omega)
  simp [edit_video, hct, hs]

/-- Witness for C8 at a one-chunk upload just over the cap. -/
theorem oversized_upload_rejected_witness :
    (edit_video [] "tiktok" (some ⟨some "video/mp4", [MAX_FILE_SIZE + 1]⟩)
        "j" 0 []).response
      = .httpError 400 ("File too large. Maximum size is " ++
          toString (MAX_FILE_SIZE / (1024 * 1024)) ++ "MB") ∧
    (edit_video [] "tiktok" (some ⟨some "video/mp4", [MAX_FILE_SIZE + 1]⟩)
        "j" 0 []).store = [] ∧
    (edit_video [] "tiktok" (some ⟨some "video/mp4", [MAX_FILE_SIZE + 1]⟩)
        "j" 0 []).inputFileExists = false ∧
    (edit_video [] "tiktok" (some ⟨some "video/mp4", [MAX_FILE_SIZE + 1]⟩)
        "j" 0 []).task = none :=
  oversized_upload_rejected [] "tiktok" ⟨some "video/mp4", [MAX_FILE_SIZE + 1]⟩
    "j" 0 [] (by decide) (by decide)

/-- C9: the finally-block cleanup of the input artifact runs on every exit
path of the pipeline, and neither the presence of the input file nor a
failure of its deletion changes any job-record write or the final record:
the run's blocks are identical whatever the cleanup outcome. -/
theorem input_cleanup_all_paths (job_id video_path : String) (prompt : PyStr)
    (output_format : String) (now : Int) (env : PipelineEnv) (b c : Bool) :
    (process_video job_id video_path prompt output_format env).cleanup_attempted
      = true ∧
    (process_video job_id video_path prompt output_format
        { env with inputExists := b, inputRemoveFails := c }).blocks =
      (process_video job_id video_path prompt output_format env).blocks ∧
    final_job (initial_job job_id now)
        (process_video job_id video_path prompt output_format
          { env with inputExists := b, inputRemoveFails := c }).blocks =
      final_job (initial_job job_id now)
        (process_video job_id video_path prompt output_format env).blocks := by
  exact ⟨rfl, rfl, rfl⟩

/-- C10: two runs that differ only in the text of a successful advisor
response produce identical results: same ffmpeg invocation, same record
writes (hence same status, progress sequence and output handle), same
cleanup behavior — the response content is discarded. -/
theorem advisor_response_noninterference (job_id video_path : String)
    (prompt : PyStr) (output_format : String) (r₁ r₂ : PyStr)
    (tc : Option TranscodeErr) (oe ie irf : Bool) :
    process_video job_id video_path prompt output_format
        ⟨.ok r₁, tc, oe, ie, irf⟩ =
      process_video job_id video_path prompt output_format
        ⟨.ok r₂, tc, oe, ie, irf⟩ := by
  rfl

end VideoEditor
